import Mathlib

set_option maxHeartbeats 1000000

/-!
Shallow embedding of the kubetools-twitter-bot posting pipeline
(src/database.py and src/scheduler.py) and proofs about the spec's claims.

Timestamps are modelled as natural numbers counting seconds since an epoch:
a Python `datetime` value `t` corresponds to the second count `n`, with
`t.date()` corresponding to `n / 86400`, `t.hour` to `n % 86400 / 3600`,
`datetime.combine(d, time(hour=h))` to `d * 86400 + h * 3600`, and
`timedelta(hours=k)` to `k * 3600`.  `isoformat`/`fromisoformat`
round-tripping is modelled by storing the second count directly (both are
injective inverses of each other on the values the program produces, and
lexicographic comparison of the fixed-format strings agrees with the
chronological order of the underlying instants).
-/

namespace KubetoolsBot

/-! ### Database data model (src/database.py) -/

/-- Input record handed to `Database.add_tool` (the `ToolRecord` dataclass
from database.py, without the `first_seen` column the insert fills in). -/
structure ToolRecord where
  name : String
  url : String
  github_url : Option String
  description : String
  category : String
  stars : Int
  added_date : Nat
  commit_sha : Option String
deriving Repr, DecidableEq

/-- A row of the `tools` table (or an entry of tools.json). -/
structure ToolRow where
  name : String
  url : String
  github_url : Option String
  description : String
  category : String
  stars : Int
  added_date : Nat
  commit_sha : Option String
  first_seen : Nat
deriving Repr, DecidableEq

/-- The row `Database.add_tool` builds from its argument, with
`first_seen = datetime.utcnow()`. -/
def mkToolRow (t : ToolRecord) (now : Nat) : ToolRow :=
  { name := t.name, url := t.url, github_url := t.github_url,
    description := t.description, category := t.category, stars := t.stars,
    added_date := t.added_date, commit_sha := t.commit_sha, first_seen := now }

/-- `Database.add_tool`, JSON-fallback branch: load tools.json, `append`,
save.  There is no uniqueness check on this path. -/
def add_tool_json (tools : List ToolRow) (t : ToolRecord) (now : Nat) : List ToolRow :=
  tools ++ [mkToolRow t now]

/-- `Database.add_tool`, SQLite branch: `INSERT OR IGNORE` against the
`UNIQUE(name, url)` constraint of the `tools` table. -/
def add_tool_sql (tools : List ToolRow) (t : ToolRecord) (now : Nat) : List ToolRow :=
  if tools.any (fun r => r.name == t.name && r.url == t.url) then tools
  else tools ++ [mkToolRow t now]

/-- Number of stored tool records carrying a given (name, url) pair. -/
def countPair (tools : List ToolRow) (name url : String) : Nat :=
  tools.countP (fun r => r.name == name && r.url == url)

/-- `Database.tool_exists` on a list of tool rows. -/
def tool_exists (tools : List ToolRow) (name url : String) : Bool :=
  tools.any (fun r => r.name == name && r.url == url)

/-- A row of the `posted_tweets` table (or an entry of posted_tweets.json). -/
structure PostedRow where
  tweet_id : String
  twitter_id : Option String
  tool_name : String
  content : String
  posted_at : Nat
  engagement_data : String
deriving Repr, DecidableEq

/-- A row of the `queued_tweets` table (the table has no max_attempts
column). -/
structure QueuedRow where
  tweet_id : String
  tool_data : String
  content : String
  created_at : Nat
  scheduled_for : Option Nat
  priority : Int
  attempts : Nat
deriving Repr, DecidableEq

/-- A row of the `bot_state` key/value table. -/
structure StateRow where
  key : String
  value : String
  updated_at : Nat
deriving Repr, DecidableEq

/-- The whole persistent database state: the four tables of
`Database._init_database` (equivalently the four JSON files of the
fallback). -/
structure DbState where
  tools : List ToolRow
  posted_tweets : List PostedRow
  queued_tweets : List QueuedRow
  bot_state : List StateRow
deriving Repr, DecidableEq

/-- `Database._set_state_value`: update the value under a key in place if
present, otherwise append a fresh row (`INSERT OR REPLACE` on the SQLite
path behaves identically up to row position). -/
def set_state_value : List StateRow → String → String → Nat → List StateRow
  | [], k, v, now => [{ key := k, value := v, updated_at := now }]
  | r :: rs, k, v, now =>
    if r.key == k then { key := k, value := v, updated_at := now } :: rs
    else r :: set_state_value rs k v now

/-- `Database._get_state_value`: the value stored under a key, if any. -/
def get_state_value (rows : List StateRow) (k : String) : Option String :=
  (rows.find? (fun r => r.key == k)).map (fun r => r.value)

/-- `Database.update_last_tweet_time`: writes the current time under the
scalar key "last_tweet_time" and touches nothing else. -/
def update_last_tweet_time (db : DbState) (now : Nat) : DbState :=
  { db with bot_state := set_state_value db.bot_state "last_tweet_time" (toString now) now }

/-- `Database.get_last_tweet_time`: the maximum `posted_at` over the
posted-tweet records, `none` when there are none.  (SQLite path:
`ORDER BY posted_at DESC LIMIT 1`; JSON path: `max(..., key=posted_at)`;
both return the maximum `posted_at` value.) -/
def get_last_tweet_time (db : DbState) : Option Nat :=
  (db.posted_tweets.map (fun r => r.posted_at)).max?

/-- `Database.update_last_check_timestamp`. -/
def update_last_check_timestamp (db : DbState) (now : Nat) : DbState :=
  { db with bot_state := set_state_value db.bot_state "last_check_timestamp" (toString now) now }

/-- `Database.get_last_check_timestamp`: reads the scalar under
"last_check_timestamp" (the `fromisoformat` parse is a pure function of
the returned string, so the raw string is the observable). -/
def get_last_check_timestamp (db : DbState) : Option String :=
  get_state_value db.bot_state "last_check_timestamp"

/-- `Database.get_recent_tweet_times`: posted times within the lookback
window ending at `now`. -/
def get_recent_tweet_times (db : DbState) (days : Nat) (now : Nat) : List Nat :=
  (db.posted_tweets.filter (fun r => now - days * 86400 ≤ r.posted_at)).map
    (fun r => r.posted_at)

/-- `Database.get_posted_tweets_since`. -/
def get_posted_tweets_since (db : DbState) (cutoff : Nat) : List PostedRow :=
  db.posted_tweets.filter (fun r => cutoff ≤ r.posted_at)

/-- `Database.get_total_tools_count`. -/
def get_total_tools_count (db : DbState) : Nat := db.tools.length

/-- `Database.get_queued_tweets_count`. -/
def get_queued_tweets_count (db : DbState) : Nat := db.queued_tweets.length

/-- `Database.get_posted_tweets_count`. -/
def get_posted_tweets_count (db : DbState) : Nat := db.posted_tweets.length

/-- The dictionary `TwitterClient.post_tweet` returns on success (its
`posted_at` field is unused by the scheduler and omitted). -/
structure TwitterResult where
  rid : String
  url : String
  text : String
deriving Repr, DecidableEq

/-- `Database.mark_tweet_posted`: append a posted record (the posting
result carries no tool_name key, so `.get` yields "Unknown"; engagement
data is the empty JSON object) and delete the id from the queued table. -/
def mark_tweet_posted (db : DbState) (tweet_id : String) (res : TwitterResult)
    (now : Nat) : DbState :=
  { db with
    posted_tweets := db.posted_tweets ++
      [{ tweet_id := tweet_id, twitter_id := some res.rid, tool_name := "Unknown",
         content := res.text, posted_at := now, engagement_data := "\x7b\x7d" }],
    queued_tweets := db.queued_tweets.filter (fun r => r.tweet_id ≠ tweet_id) }

/-- `Database.mark_tweet_failed`: despite its name it only deletes the id
from the queued table. -/
def mark_tweet_failed (db : DbState) (tweet_id : String) : DbState :=
  { db with queued_tweets := db.queued_tweets.filter (fun r => r.tweet_id ≠ tweet_id) }

/-- `Database.add_queued_tweet` (SQLite path, `INSERT OR REPLACE` keyed on
tweet_id: replace in place when present, else append). -/
def add_queued_tweet (db : DbState) (row : QueuedRow) : DbState :=
  { db with
    queued_tweets :=
      if db.queued_tweets.any (fun r => r.tweet_id == row.tweet_id) then
        db.queued_tweets.map (fun r => if r.tweet_id == row.tweet_id then row else r)
      else db.queued_tweets ++ [row] }

/-! ### Scheduler data model (src/scheduler.py) -/

/-- A clock instant with sub-second precision: `datetime.utcnow()` carries
whole seconds plus a microsecond component.  `strftime` with a
seconds-resolution format discards the microseconds. -/
structure MicroTime where
  secs : Nat
  micros : Nat
deriving Repr, DecidableEq

/-- The id `add_to_queue` generates: the f-string
`name_utcnow.strftime(%Y%m%d_%H%M%S)`.  The strftime format is an
injective function of the whole second and is independent of the
microsecond component; it is modelled as the decimal second count. -/
def gen_tweet_id (name : String) (t : MicroTime) : String :=
  name ++ "_" ++ toString t.secs

/-- The `QueuedTweet` dataclass. -/
structure QueuedTweet where
  id : String
  tool_data : String
  tweet_content : String
  created_at : Nat
  scheduled_for : Option Nat
  priority : Int
  attempts : Nat
  max_attempts : Nat
deriving Repr, DecidableEq

/-- The JSON dictionary `QueuedTweet.to_dict` produces (datetimes stored
as their isoformat strings, modelled by the underlying second counts). -/
structure QueuedTweetDict where
  id : String
  tool_data : String
  tweet_content : String
  created_at : Nat
  scheduled_for : Option Nat
  priority : Int
  attempts : Nat
  max_attempts : Nat
deriving Repr, DecidableEq

/-- `QueuedTweet.to_dict`. -/
def QueuedTweet.to_dict (t : QueuedTweet) : QueuedTweetDict :=
  { id := t.id, tool_data := t.tool_data, tweet_content := t.tweet_content,
    created_at := t.created_at, scheduled_for := t.scheduled_for,
    priority := t.priority, attempts := t.attempts, max_attempts := t.max_attempts }

/-- `QueuedTweet.from_dict`. -/
def QueuedTweet.from_dict (d : QueuedTweetDict) : QueuedTweet :=
  { id := d.id, tool_data := d.tool_data, tweet_content := d.tweet_content,
    created_at := d.created_at, scheduled_for := d.scheduled_for,
    priority := d.priority, attempts := d.attempts, max_attempts := d.max_attempts }

/-- The row `TweetScheduler.add_to_queue` hands to
`Database.add_queued_tweet`. -/
def QueuedTweet.to_row (t : QueuedTweet) : QueuedRow :=
  { tweet_id := t.id, tool_data := t.tool_data, content := t.tweet_content,
    created_at := t.created_at, scheduled_for := t.scheduled_for,
    priority := t.priority, attempts := t.attempts }

/-- The second component of the Python sort key,
`t.scheduled_for or datetime.max`: a missing scheduled time compares
above every representable time. -/
def schedKey (t : QueuedTweet) : WithTop Nat :=
  match t.scheduled_for with
  | some x => (x : WithTop Nat)
  | none => ⊤

/-- The sort key of `TweetScheduler._sort_queue`, as the lexicographic
triple (-priority, scheduled_for or max, created_at). -/
def sort_key (t : QueuedTweet) : Lex (Int × Lex ((WithTop Nat) × Nat)) :=
  toLex (-t.priority, toLex (schedKey t, t.created_at))

/-- Comparison used to sort the queue: Python tuple comparison on the
sort keys. -/
def queueLE (a b : QueuedTweet) : Bool := decide (sort_key a ≤ sort_key b)

/-- `TweetScheduler._sort_queue` (Python `list.sort` is a stable merge
sort over the key). -/
def sort_queue (q : List QueuedTweet) : List QueuedTweet := q.mergeSort queueLE

/-- The sort-order invariant of the spec. -/
def QueueSorted (q : List QueuedTweet) : Prop :=
  q.Pairwise (fun a b => queueLE a b = true)

/-- The full scheduler state: the in-memory queue, the contents of
data/tweet_queue.json written by `_save_queue` and read back by
`_load_queue`, and the database. -/
structure SchedulerState where
  queue : List QueuedTweet
  saved_file : List QueuedTweetDict
  db : DbState
deriving Repr, DecidableEq

/-- `TweetScheduler._save_queue`: serialize the in-memory queue into the
queue file. -/
def save_queue (s : SchedulerState) : SchedulerState :=
  { s with saved_file := s.queue.map QueuedTweet.to_dict }

/-- `TweetScheduler._load_queue`: rebuild the in-memory queue from the
queue file. -/
def load_queue (file : List QueuedTweetDict) : List QueuedTweet :=
  file.map QueuedTweet.from_dict

/-- `min_interval_hours = max(24 // tweets_per_day - 1, 2)` from the
scheduler's constructor (Python floor division and truncated subtraction
agree with Nat arithmetic here because the result is clamped to at
least 2). -/
def min_interval_hours (tweets_per_day : Nat) : Nat :=
  max (24 / tweets_per_day - 1) 2

/-- `TweetScheduler._find_next_optimal_hour`: first configured hour of
today strictly after `from_time`, else the first configured hour of
tomorrow. -/
def find_next_optimal_hour (optimal_hours : List Nat) (from_time : Nat) : Nat :=
  let target_date := from_time / 86400
  match optimal_hours.find? (fun h => decide (from_time < target_date * 86400 + h * 3600)) with
  | some h => target_date * 86400 + h * 3600
  | none => (target_date + 1) * 86400 + optimal_hours.headD 0 * 3600

/-- `TweetScheduler._calculate_next_slot`.  `optimal_hours[0]` is modelled
by `headD 0`; the claims about this function assume a non-empty hour
configuration (an empty one would raise and be caught by the
fallback-to-now-plus-2h handler, a path outside every claim). -/
def calculate_next_slot (tweets_per_day : Nat) (optimal_hours : List Nat)
    (now : Nat) (recent_tweets : List Nat) : Nat :=
  let today_tweets := recent_tweets.filter (fun t => t / 86400 == now / 86400)
  if today_tweets.length < tweets_per_day then
    let next_slot := find_next_optimal_hour optimal_hours now
    match recent_tweets.max? with
    | some last => max next_slot (last + min_interval_hours tweets_per_day * 3600)
    | none => next_slot
  else
    now / 86400 * 86400 + optimal_hours.headD 0 * 3600 + 86400

/-- `TweetScheduler.add_to_queue`: generate the id, build the dataclass
with its defaults, compute the slot from the recent send history, append,
sort, save the queue file, and mirror the row into the database. -/
def add_to_queue (tweets_per_day : Nat) (optimal_hours : List Nat)
    (s : SchedulerState) (tool_name tool_data tweet_content : String)
    (priority : Int) (now : MicroTime) : String × SchedulerState :=
  let id := gen_tweet_id tool_name now
  let slot := calculate_next_slot tweets_per_day optimal_hours now.secs
    (get_recent_tweet_times s.db 1 now.secs)
  let qt : QueuedTweet :=
    { id := id, tool_data := tool_data, tweet_content := tweet_content,
      created_at := now.secs, scheduled_for := some slot, priority := priority,
      attempts := 0, max_attempts := 3 }
  let s1 := save_queue { s with queue := sort_queue (s.queue ++ [qt]) }
  (id, { s1 with db := add_queued_tweet s1.db qt.to_row })

/-- `TweetScheduler.should_post_tweet`. -/
def should_post_tweet (tweets_per_day : Nat) (s : SchedulerState) (now : Nat) : Bool :=
  match s.queue with
  | [] => false
  | next :: _ =>
    let ready : Bool :=
      match next.scheduled_for with
      | some t => decide (t ≤ now)
      | none => false
    if ready then true
    else
      match get_last_tweet_time s.db with
      | some last =>
        decide ((min_interval_hours tweets_per_day * 3600 : Int) < (now : Int) - (last : Int))
      | none => false

/-- `TweetScheduler.post_next_tweet`.  The posting collaborator's outcome
is passed in as `result` (`some` on success, `none` on failure). -/
def post_next_tweet (s : SchedulerState) (now : Nat) (result : Option TwitterResult) :
    Bool × SchedulerState :=
  match s.queue with
  | [] => (false, s)
  | next :: rest =>
    match result with
    | some r =>
      let s1 := save_queue { s with queue := rest }
      (true,
        { s1 with db := update_last_tweet_time (mark_tweet_posted s1.db next.id r now) now })
    | none =>
      if next.max_attempts ≤ next.attempts + 1 then
        (false, save_queue { s with queue := rest, db := mark_tweet_failed s.db next.id })
      else
        (false, save_queue { s with
          queue := sort_queue
            ({ next with attempts := next.attempts + 1,
                         scheduled_for := some (now + 3600) } :: rest) })

/-- The for-loop body of `TweetScheduler.reschedule_tweet`: update the
first queue entry carrying the id, if any. -/
def reschedule_list : List QueuedTweet → String → Nat → Option (List QueuedTweet)
  | [], _, _ => none
  | t :: rest, id, newTime =>
    if t.id == id then some ({ t with scheduled_for := some newTime } :: rest)
    else
      match reschedule_list rest id newTime with
      | some rest' => some (t :: rest')
      | none => none

/-- `TweetScheduler.reschedule_tweet`. -/
def reschedule_tweet (s : SchedulerState) (id : String) (new_time : Nat) :
    Bool × SchedulerState :=
  match reschedule_list s.queue id new_time with
  | some q' => (true, save_queue { s with queue := sort_queue q' })
  | none => (false, s)

/-- `TweetScheduler.remove_tweet`. -/
def remove_tweet (s : SchedulerState) (id : String) : Bool × SchedulerState :=
  let q' := s.queue.filter (fun t => t.id ≠ id)
  if q'.length < s.queue.length then (true, save_queue { s with queue := q' })
  else (false, { s with queue := q' })

/-- `TweetScheduler.clear_queue`. -/
def clear_queue (s : SchedulerState) (keep_high_priority : Bool) : Nat × SchedulerState :=
  let q' := if keep_high_priority then s.queue.filter (fun t => 1 < t.priority) else []
  (s.queue.length - q'.length, save_queue { s with queue := q' })

/-- One mutation of the delivery queue, with the external inputs (clock,
posting outcome, configuration) it consumes. -/
inductive QueueOp where
  | enqueue (tweets_per_day : Nat) (optimal_hours : List Nat)
      (tool_name tool_data tweet_content : String) (priority : Int) (now : MicroTime)
  | postNext (now : Nat) (result : Option TwitterResult)
  | reschedule (id : String) (new_time : Nat)
  | remove (id : String)
  | clear (keep_high_priority : Bool)

/-- Apply one queue mutation to the scheduler state. -/
def stepOp (s : SchedulerState) : QueueOp → SchedulerState
  | .enqueue tpd hours tn td tc p now => (add_to_queue tpd hours s tn td tc p now).2
  | .postNext now result => (post_next_tweet s now result).2
  | .reschedule id t => (reschedule_tweet s id t).2
  | .remove id => (remove_tweet s id).2
  | .clear keep => (clear_queue s keep).2

/-- The write-through invariant: reloading the persisted queue file gives
back exactly the in-memory queue. -/
def FileConsistent (s : SchedulerState) : Prop :=
  load_queue s.saved_file = s.queue

/-- Concrete tool record used in counterexamples. -/
def sampleTool : ToolRecord :=
  { name := "kubectl-ai", url := "https://github.com/sozercan/kubectl-ai",
    github_url := none, description := "desc", category := "AI", stars := 1,
    added_date := 0, commit_sha := none }

/-- The retry mutation of the failure branch of post_next_tweet: attempt
count incremented, scheduled one hour after now. -/
def retry_update (next : QueuedTweet) (now : Nat) : QueuedTweet :=
  { next with attempts := next.attempts + 1, scheduled_for := some (now + 3600) }

/-- Empty scheduler state, used in concrete instantiations. -/
def emptyState : SchedulerState :=
  { queue := [], saved_file := [],
    db := { tools := [], posted_tweets := [], queued_tweets := [], bot_state := [] } }

/-- A queued tweet on its last allowed attempt. -/
def dropTweet : QueuedTweet :=
  { id := "a_1", tool_data := "t", tweet_content := "c", created_at := 0,
    scheduled_for := some 10, priority := 1, attempts := 2, max_attempts := 3 }

/-- A queued tweet on its first attempt. -/
def retryTweet : QueuedTweet :=
  { id := "b_1", tool_data := "t", tweet_content := "c", created_at := 0,
    scheduled_for := some 10, priority := 1, attempts := 0, max_attempts := 3 }

/-! ### Helper lemmas -/

theorem find_state_set_ne (rows : List StateRow) (k k' v : String) (now : Nat)
    (h : k ≠ k') :
    List.find? (fun r => r.key == k') (set_state_value rows k v now) =
      List.find? (fun r => r.key == k') rows := by
  have hb : (k == k') = false := beq_eq_false_iff_ne.mpr h
  induction rows with
  | nil => simp [set_state_value, List.find?, hb]
  | cons r rs ih =>
    by_cases hr : r.key = k
    · have hb2 : (r.key == k) = true := beq_iff_eq.mpr hr
      have hb3 : (r.key == k') = false :=
        beq_eq_false_iff_ne.mpr (fun hc => h (hr ▸ hc))
      simp only [set_state_value, hb2, if_true, List.find?, hb, hb3]
    · have hb2 : (r.key == k) = false := beq_eq_false_iff_ne.mpr hr
      simp only [set_state_value, hb2, Bool.false_eq_true, if_false, List.find?]
      cases hk' : (r.key == k') with
      | true => rfl
      | false => exact ih

theorem get_state_value_set_ne (rows : List StateRow) (k k' v : String) (now : Nat)
    (h : k ≠ k') :
    get_state_value (set_state_value rows k v now) k' = get_state_value rows k' := by
  simp [get_state_value, find_state_set_ne rows k k' v now h]

theorem from_dict_to_dict (t : QueuedTweet) : QueuedTweet.from_dict t.to_dict = t := rfl

theorem queueLE_trans (a b c : QueuedTweet) :
    queueLE a b = true → queueLE b c = true → queueLE a c = true := by
  simp only [queueLE, decide_eq_true_eq]
  exact le_trans

theorem queueLE_total (a b : QueuedTweet) : (queueLE a b || queueLE b a) = true := by
  simp only [queueLE, Bool.or_eq_true, decide_eq_true_eq]
  exact le_total _ _

theorem sort_queue_sorted (q : List QueuedTweet) : QueueSorted (sort_queue q) :=
  List.sorted_mergeSort queueLE_trans queueLE_total q

theorem load_queue_map_to_dict (q : List QueuedTweet) :
    load_queue (q.map QueuedTweet.to_dict) = q := by
  rw [load_queue, List.map_map]
  have h : (QueuedTweet.from_dict ∘ QueuedTweet.to_dict) = id := funext fun t => rfl
  rw [h, List.map_id]

/-! ### Claim C1: idempotence of Database.add_tool -/

/-- Claim C1 fails on the JSON-fallback backend: calling add_tool twice on
an empty store with the same (name, url) pair leaves two records for that
pair, not one, because the JSON path appends unconditionally. -/
theorem C1_json_backend_counterexample :
    countPair (add_tool_json (add_tool_json [] sampleTool 0) sampleTool 1)
      sampleTool.name sampleTool.url = 2 := by decide

theorem countP_zero_not_any (tools : List ToolRow) (name url : String)
    (h : countPair tools name url = 0) :
    tools.any (fun r => r.name == name && r.url == url) = false := by
  rw [← Bool.not_eq_true, List.any_eq_true]
  rintro ⟨x, hx, hpx⟩
  exact List.countP_eq_zero.mp h x hx hpx

/-- Claim C1 (amended): starting from a store with no record for the pair,
calling add_tool twice leaves exactly one record for the pair in the
SQLite backend (INSERT OR IGNORE against UNIQUE(name, url)); in the
JSON-fallback backend each call appends, so two calls leave two records. -/
theorem C1_add_tool_idempotent_sqlite (tools : List ToolRow) (t : ToolRecord)
    (n1 n2 : Nat) (h : countPair tools t.name t.url = 0) :
    countPair (add_tool_sql (add_tool_sql tools t n1) t n2) t.name t.url = 1 ∧
    countPair (add_tool_json (add_tool_json tools t n1) t n2) t.name t.url = 2 := by
  have hany := countP_zero_not_any tools t.name t.url h
  have hrow : ∀ n : Nat,
      ((mkToolRow t n).name == t.name && (mkToolRow t n).url == t.url) = true := by
    intro n; simp [mkToolRow]
  have hstep1 : add_tool_sql tools t n1 = tools ++ [mkToolRow t n1] := by
    simp [add_tool_sql, hany]
  have hany2 : (tools ++ [mkToolRow t n1]).any
      (fun r => r.name == t.name && r.url == t.url) = true := by
    rw [List.any_eq_true]
    exact ⟨mkToolRow t n1, List.mem_append_right _ (List.mem_singleton_self _), hrow n1⟩
  constructor
  · rw [hstep1]
    have hstep2 : add_tool_sql (tools ++ [mkToolRow t n1]) t n2 =
        tools ++ [mkToolRow t n1] := by
      simp [add_tool_sql, hany2]
    rw [hstep2]
    simp [countPair, List.countP_append, List.countP_cons, hrow n1]
    simpa [countPair] using h
  · simp [add_tool_json, countPair, List.countP_append, List.countP_cons,
      hrow n1, hrow n2]
    simpa [countPair] using h

theorem C1_add_tool_idempotent_sqlite_witness :
    countPair (add_tool_sql (add_tool_sql [] sampleTool 0) sampleTool 1)
      sampleTool.name sampleTool.url = 1 ∧
    countPair (add_tool_json (add_tool_json [] sampleTool 0) sampleTool 1)
      sampleTool.name sampleTool.url = 2 :=
  C1_add_tool_idempotent_sqlite [] sampleTool 0 1 (by decide)

/-! ### Claim C10: the last_tweet_time scalar is write-only -/

/-- Claim C10: get_last_tweet_time is the maximum posted_at over the
posted-tweet records and never consults the bot_state scalars, so a call
to update_last_tweet_time (which only rewrites the "last_tweet_time"
scalar) changes the result of no read operation of the database. -/
theorem C10_update_last_tweet_time_unobservable (db : DbState) (now : Nat)
    (days now' cutoff : Nat) (name url : String) :
    get_last_tweet_time db = (db.posted_tweets.map (fun r => r.posted_at)).max? ∧
    get_last_tweet_time (update_last_tweet_time db now) = get_last_tweet_time db ∧
    get_recent_tweet_times (update_last_tweet_time db now) days now' =
      get_recent_tweet_times db days now' ∧
    get_posted_tweets_since (update_last_tweet_time db now) cutoff =
      get_posted_tweets_since db cutoff ∧
    get_last_check_timestamp (update_last_tweet_time db now) =
      get_last_check_timestamp db ∧
    tool_exists (update_last_tweet_time db now).tools name url =
      tool_exists db.tools name url ∧
    get_total_tools_count (update_last_tweet_time db now) = get_total_tools_count db ∧
    get_queued_tweets_count (update_last_tweet_time db now) =
      get_queued_tweets_count db ∧
    get_posted_tweets_count (update_last_tweet_time db now) =
      get_posted_tweets_count db := by
  refine ⟨rfl, rfl, rfl, rfl, ?_, rfl, rfl, rfl, rfl⟩
  exact get_state_value_set_ne db.bot_state "last_tweet_time" "last_check_timestamp"
    (toString now) now (by decide)

/-! ### Claim C3: write-through persistence and restart safety -/

theorem save_queue_consistent (s : SchedulerState) : FileConsistent (save_queue s) :=
  load_queue_map_to_dict s.queue

theorem consistent_db_patch (s : SchedulerState) (d : DbState) (h : FileConsistent s) :
    FileConsistent { s with db := d } := h

theorem stepOp_consistent (s : SchedulerState) (op : QueueOp) (h : FileConsistent s) :
    FileConsistent (stepOp s op) := by
  obtain ⟨q, f, d⟩ := s
  cases op with
  | enqueue tpd hours tn td tc p now =>
    exact consistent_db_patch _ _ (save_queue_consistent _)
  | postNext now result =>
    cases q with
    | nil => exact h
    | cons next rest =>
      cases result with
      | some r => exact consistent_db_patch _ _ (save_queue_consistent _)
      | none =>
        by_cases hc : next.max_attempts ≤ next.attempts + 1
        · simp only [stepOp, post_next_tweet, if_pos hc]
          exact save_queue_consistent _
        · simp only [stepOp, post_next_tweet, if_neg hc]
          exact save_queue_consistent _
  | reschedule id t =>
    simp only [stepOp, reschedule_tweet]
    cases hr : reschedule_list q id t with
    | none => exact h
    | some q' => exact save_queue_consistent _
  | remove id =>
    simp only [stepOp, remove_tweet]
    by_cases hlen : (q.filter (fun t => t.id ≠ id)).length < q.length
    · simp only [if_pos hlen]
      exact save_queue_consistent _
    · simp only [if_neg hlen]
      have hle : (q.filter (fun t => t.id ≠ id)).length ≤ q.length :=
        List.length_filter_le _ _
      have heq : (q.filter (fun t => t.id ≠ id)).length = q.length :=
        Nat.le_antisymm hle (Nat.not_lt.mp hlen)
      have hfe : q.filter (fun t => t.id ≠ id) = q :=
        List.filter_eq_self.mpr (List.filter_length_eq_length.mp heq)
      rw [hfe]
      exact h
  | clear keep =>
    exact save_queue_consistent _

theorem foldl_stepOp_consistent (ops : List QueueOp) (s : SchedulerState)
    (h : FileConsistent s) : FileConsistent (ops.foldl stepOp s) := by
  induction ops generalizing s with
  | nil => exact h
  | cons op more ih => exact ih (stepOp s op) (stepOp_consistent s op h)

/-- Claim C3: every queue mutation (enqueue, successful post, retry
reschedule, administrative reschedule, remove, clear) rewrites the
persisted queue file, so after any sequence of mutations starting from a
consistent state, reloading the persisted queue reconstructs exactly the
in-memory pending set: the same records, hence the same ids, attempt
counts and scheduled times. -/
theorem C3_restart_safety (ops : List QueueOp) (q0 : List QueuedTweet) (d0 : DbState) :
    load_queue (ops.foldl stepOp
      { queue := q0, saved_file := q0.map QueuedTweet.to_dict, db := d0 }).saved_file =
    (ops.foldl stepOp
      { queue := q0, saved_file := q0.map QueuedTweet.to_dict, db := d0 }).queue :=
  foldl_stepOp_consistent ops _ (load_queue_map_to_dict q0)

/-! ### Claim C4: the queue stays sorted after enqueue, reschedule, remove -/

/-- Claim C4: starting from any sorted queue (every reachable queue is the
output of sort_queue), the queue is again sorted by (priority descending,
scheduled_for ascending with missing times last, created_at ascending)
after an enqueue, after a reschedule, and after a remove. -/
theorem C4_queue_sorted_after_ops (s0 : SchedulerState) (q0 : List QueuedTweet)
    (tpd : Nat) (hours : List Nat) (tn td tc : String) (p : Int) (mt : MicroTime)
    (rid : String) (rt : Nat) (remid : String) :
    QueueSorted ((add_to_queue tpd hours { s0 with queue := sort_queue q0 }
        tn td tc p mt).2.queue) ∧
    QueueSorted ((reschedule_tweet { s0 with queue := sort_queue q0 } rid rt).2.queue) ∧
    QueueSorted ((remove_tweet { s0 with queue := sort_queue q0 } remid).2.queue) := by
  refine ⟨sort_queue_sorted _, ?_, ?_⟩
  · simp only [reschedule_tweet]
    cases hr : reschedule_list (sort_queue q0) rid rt with
    | none => exact sort_queue_sorted q0
    | some q' => exact sort_queue_sorted q'
  · simp only [remove_tweet]
    by_cases hlen : ((sort_queue q0).filter (fun t => t.id ≠ remid)).length <
        (sort_queue q0).length
    · simp only [if_pos hlen]
      exact List.Pairwise.filter _ (sort_queue_sorted q0)
    · simp only [if_neg hlen]
      exact List.Pairwise.filter _ (sort_queue_sorted q0)

/-! ### Claim C5: failure handling in post_next_tweet -/

/-- Claim C5: when posting the head of a non-empty queue fails,
post_next_tweet returns false and increments the head's attempt count; if
the incremented count reaches max_attempts the head is removed from the
in-memory queue, removed from the persisted queue file, and handed to
Database.mark_tweet_failed (so it is never retried); otherwise the head is
kept with scheduled_for = now + 1 hour, the queue is re-sorted and the
file rewritten. -/
theorem C5_post_next_failure (s0 : SchedulerState) (next : QueuedTweet)
    (rest : List QueuedTweet) (now : Nat) :
    (post_next_tweet { s0 with queue := next :: rest } now none).1 = false ∧
    (next.max_attempts ≤ next.attempts + 1 →
      (post_next_tweet { s0 with queue := next :: rest } now none).2.queue = rest ∧
      (post_next_tweet { s0 with queue := next :: rest } now none).2.db =
        mark_tweet_failed s0.db next.id ∧
      (post_next_tweet { s0 with queue := next :: rest } now none).2.saved_file =
        rest.map QueuedTweet.to_dict) ∧
    (next.attempts + 1 < next.max_attempts →
      (post_next_tweet { s0 with queue := next :: rest } now none).2.queue =
        sort_queue (retry_update next now :: rest) ∧
      (post_next_tweet { s0 with queue := next :: rest } now none).2.db = s0.db ∧
      (post_next_tweet { s0 with queue := next :: rest } now none).2.saved_file =
        (sort_queue (retry_update next now :: rest)).map QueuedTweet.to_dict) := by
  by_cases hc : next.max_attempts ≤ next.attempts + 1
  · refine ⟨?_, fun _ => ⟨?_, ?_, ?_⟩, fun hlt => absurd hc (Nat.not_le.mpr hlt)⟩ <;>
      simp [post_next_tweet, if_pos hc, save_queue, mark_tweet_failed]
  · refine ⟨?_, fun hle => absurd hle hc, fun _ => ⟨?_, ?_, ?_⟩⟩ <;>
      simp [post_next_tweet, if_neg hc, save_queue, retry_update]

theorem C5_post_next_failure_witness :
    ((post_next_tweet { emptyState with queue := dropTweet :: [] } 50 none).1 = false ∧
      (post_next_tweet { emptyState with queue := dropTweet :: [] } 50 none).2.queue = [] ∧
      (post_next_tweet { emptyState with queue := dropTweet :: [] } 50 none).2.db =
        mark_tweet_failed emptyState.db dropTweet.id) ∧
    ((post_next_tweet { emptyState with queue := retryTweet :: [] } 50 none).2.queue =
      sort_queue (retry_update retryTweet 50 :: [])) :=
  ⟨⟨(C5_post_next_failure emptyState dropTweet [] 50).1,
    ((C5_post_next_failure emptyState dropTweet [] 50).2.1 (by decide)).1,
    ((C5_post_next_failure emptyState dropTweet [] 50).2.1 (by decide)).2.1⟩,
    ((C5_post_next_failure emptyState retryTweet [] 50).2.2 (by decide)).1⟩

/-! ### Claim C9: post_next_tweet on an empty queue is a no-op -/

/-- Claim C9: on an empty queue, post_next_tweet returns false and the
whole state — in-memory queue, persisted queue file, database (posted
history, queued rows, scalars) — is unchanged. -/
theorem C9_post_next_empty (s0 : SchedulerState) (now : Nat)
    (result : Option TwitterResult) :
    post_next_tweet { s0 with queue := [] } now result =
      (false, { s0 with queue := [] }) := rfl

/-! ### Claim C6: the due check -/

/-- Claim C6: should_post_tweet returns true exactly when the head of the
queue has a scheduled time at or before now, or the queue is non-empty and
the recorded last successful post lies strictly more than
min_interval_hours in the past; in particular it returns false on an empty
queue (the iff forces the right side's non-empty queue). -/
theorem C6_should_post_iff (tpd : Nat) (s : SchedulerState) (now : Nat) :
    should_post_tweet tpd s now = true ↔
      ∃ next rest, s.queue = next :: rest ∧
        ((∃ t, next.scheduled_for = some t ∧ t ≤ now) ∨
         (∃ last, get_last_tweet_time s.db = some last ∧
            (min_interval_hours tpd * 3600 : Int) < (now : Int) - (last : Int))) := by
  obtain ⟨q, f, d⟩ := s
  cases q with
  | nil => simp [should_post_tweet]
  | cons next rest =>
    cases hsf : next.scheduled_for with
    | none =>
      cases hl : get_last_tweet_time d with
      | none => simp [should_post_tweet, hsf, hl]
      | some last =>
        by_cases hlt : (min_interval_hours tpd * 3600 : Int) < (now : Int) - (last : Int)
        · simp [should_post_tweet, hsf, hl, hlt]
        · simp [should_post_tweet, hsf, hl, hlt]
    | some t =>
      by_cases ht : t ≤ now
      · simp [should_post_tweet, hsf, ht]
      · cases hl : get_last_tweet_time d with
        | none => simp [should_post_tweet, hsf, ht, hl]
        | some last =>
          by_cases hlt : (min_interval_hours tpd * 3600 : Int) < (now : Int) - (last : Int)
          · simp [should_post_tweet, hsf, ht, hl, hlt]
          · simp [should_post_tweet, hsf, ht, hl, hlt]

/-! ### Claim C2: minimum spacing in _calculate_next_slot -/

/-- Claim C2 fails in the quota-reached branch: with a daily quota of 2
(min_interval_hours = 11), two sends on day 0 (22:00 and 23:00) and now at
day 0 23:30, the computed slot is day 1 09:00 (second 118800), which is
earlier than max(recentSendTimes) + minSpacing = 23:00 + 11h (second
122400). -/
theorem C2_min_spacing_counterexample :
    ([79200, 82800] : List Nat).max? = some 82800 ∧
    calculate_next_slot 2 [9, 13, 17, 21] 84600 [79200, 82800] <
      82800 + min_interval_hours 2 * 3600 := by decide

/-- Claim C2 (amended): for non-empty recentSendTimes, when the count of
recent sends on now's calendar date is still below the daily quota the
computed slot is at least max(recentSendTimes) + minSpacing; when the
quota is reached the slot is the first preferred hour of the next day,
with no spacing clamp applied. -/
theorem C2_next_slot_min_spacing (tpd : Nat) (hours : List Nat) (now r0 : Nat)
    (rs : List Nat) :
    ∃ m, (r0 :: rs).max? = some m ∧
      ((((r0 :: rs).filter (fun t => t / 86400 == now / 86400)).length < tpd →
        m + min_interval_hours tpd * 3600 ≤
          calculate_next_slot tpd hours now (r0 :: rs)) ∧
      (tpd ≤ (((r0 :: rs)).filter (fun t => t / 86400 == now / 86400)).length →
        calculate_next_slot tpd hours now (r0 :: rs) =
          now / 86400 * 86400 + hours.headD 0 * 3600 + 86400)) := by
  refine ⟨rs.foldl max r0, rfl, fun hlt => ?_, fun hge => ?_⟩
  · simp only [calculate_next_slot, if_pos hlt, List.max?_cons, List.max?]
    exact Nat.le_max_right _ _
  · simp only [calculate_next_slot, if_neg (Nat.not_lt.mpr hge)]

theorem C2_next_slot_min_spacing_witness :
    32700 + min_interval_hours 4 * 3600 ≤
      calculate_next_slot 4 [9, 13, 17, 21] 33000 [32700] := by
  obtain ⟨m, hm, h1, _⟩ := C2_next_slot_min_spacing 4 [9, 13, 17, 21] 33000 32700 []
  have hm' : m = 32700 := by
    simpa [List.max?] using hm.symm
  have hres := h1 (by decide)
  rw [hm'] at hres
  exact hres

/-! ### Claim C7: next slot with no recent sends lands on a preferred hour -/

theorem find_min_of_sorted (l : List Nat) (p : Nat → Bool)
    (hsort : l.Pairwise (· ≤ ·)) :
    (∃ a, l.find? p = some a ∧ a ∈ l ∧ p a = true ∧ ∀ b ∈ l, p b = true → a ≤ b) ∨
    (l.find? p = none ∧ ∀ b ∈ l, p b = false) := by
  induction l with
  | nil => exact .inr ⟨rfl, by simp⟩
  | cons a l ih =>
    rcases List.pairwise_cons.mp hsort with ⟨hall, htail⟩
    by_cases hp : p a = true
    · refine .inl ⟨a, List.find?_cons_of_pos l hp, List.mem_cons_self a l, hp, ?_⟩
      intro b hb _
      rcases List.mem_cons.mp hb with hba | hb
      · exact le_of_eq (congrArg id hba).symm
      · exact hall b hb
    · have hrec := List.find?_cons_of_neg l hp
      rcases ih htail with ⟨c, hfind, hcmem, hcp, hcmin⟩ | ⟨hfind, hnone⟩
      · refine .inl ⟨c, by rw [hrec, hfind], List.mem_cons_of_mem a hcmem, hcp, ?_⟩
        intro b hb hpb
        rcases List.mem_cons.mp hb with hba | hb
        · exact absurd (hba ▸ hpb) hp
        · exact hcmin b hb hpb
      · refine .inr ⟨by rw [hrec, hfind], ?_⟩
        intro b hb
        rcases List.mem_cons.mp hb with hba | hb
        · exact hba ▸ Bool.eq_false_iff.mpr hp
        · exact hnone b hb

/-- Claim C7: with an empty recent-send history the computed slot falls on
one of the configured preferred hours and is never in the past: it is
today's least preferred hour strictly after now when one exists, and
otherwise the first preferred hour of the next calendar day. -/
theorem C7_next_slot_empty_recent (tpd : Nat) (hours : List Nat) (now : Nat)
    (htpd : 0 < tpd) (hne : hours ≠ []) (hsort : hours.Pairwise (· ≤ ·))
    (h24 : ∀ hh ∈ hours, hh < 24) :
    now < calculate_next_slot tpd hours now [] ∧
    calculate_next_slot tpd hours now [] % 86400 / 3600 ∈ hours ∧
    ((∃ hh ∈ hours, now < now / 86400 * 86400 + hh * 3600 ∧
        calculate_next_slot tpd hours now [] = now / 86400 * 86400 + hh * 3600 ∧
        ∀ h2 ∈ hours, now < now / 86400 * 86400 + h2 * 3600 → hh ≤ h2) ∨
     ((∀ hh ∈ hours, now / 86400 * 86400 + hh * 3600 ≤ now) ∧
      calculate_next_slot tpd hours now [] =
        (now / 86400 + 1) * 86400 + hours.headD 0 * 3600)) := by
  have hcalc : calculate_next_slot tpd hours now [] = find_next_optimal_hour hours now := by
    simp [calculate_next_slot, htpd, List.max?]
  rcases find_min_of_sorted hours
      (fun hh => decide (now < now / 86400 * 86400 + hh * 3600)) hsort with
    ⟨a, hfind, hmem, hpa, hmin⟩ | ⟨hfind, hnone⟩
  · have hres : find_next_optimal_hour hours now = now / 86400 * 86400 + a * 3600 := by
      simp only [find_next_optimal_hour, hfind]
    have hlt : now < now / 86400 * 86400 + a * 3600 := of_decide_eq_true hpa
    have ha24 : a < 24 := h24 a hmem
    have hhour : (now / 86400 * 86400 + a * 3600) % 86400 / 3600 = a := by omega
    refine ⟨?_, ?_, .inl ⟨a, hmem, hlt, ?_, ?_⟩⟩
    · rw [hcalc, hres]; exact hlt
    · rw [hcalc, hres, hhour]; exact hmem
    · rw [hcalc, hres]
    · intro h2 hh2 hlt2
      exact hmin h2 hh2 (decide_eq_true hlt2)
  · have hres : find_next_optimal_hour hours now =
        (now / 86400 + 1) * 86400 + hours.headD 0 * 3600 := by
      simp only [find_next_optimal_hour, hfind]
    have h0mem : hours.headD 0 ∈ hours := by
      cases hours with
      | nil => exact absurd rfl hne
      | cons a l => exact List.mem_cons_self a l
    have h024 : hours.headD 0 < 24 := h24 _ h0mem
    have hlt : now < (now / 86400 + 1) * 86400 + hours.headD 0 * 3600 := by omega
    have hhour : ((now / 86400 + 1) * 86400 + hours.headD 0 * 3600) % 86400 / 3600 =
        hours.headD 0 := by omega
    refine ⟨?_, ?_, .inr ⟨?_, ?_⟩⟩
    · rw [hcalc, hres]; exact hlt
    · rw [hcalc, hres, hhour]; exact h0mem
    · intro hh hhm
      exact Nat.not_lt.mp (of_decide_eq_false (hnone hh hhm))
    · rw [hcalc, hres]

theorem C7_next_slot_empty_recent_witness :
    28800 < calculate_next_slot 4 [9, 13, 17, 21] 28800 [] ∧
    calculate_next_slot 4 [9, 13, 17, 21] 28800 [] % 86400 / 3600 ∈
      ([9, 13, 17, 21] : List Nat) ∧
    ((∃ hh ∈ ([9, 13, 17, 21] : List Nat),
        28800 < 28800 / 86400 * 86400 + hh * 3600 ∧
        calculate_next_slot 4 [9, 13, 17, 21] 28800 [] =
          28800 / 86400 * 86400 + hh * 3600 ∧
        ∀ h2 ∈ ([9, 13, 17, 21] : List Nat),
          28800 < 28800 / 86400 * 86400 + h2 * 3600 → hh ≤ h2) ∨
     ((∀ hh ∈ ([9, 13, 17, 21] : List Nat),
        28800 / 86400 * 86400 + hh * 3600 ≤ 28800) ∧
      calculate_next_slot 4 [9, 13, 17, 21] 28800 [] =
        (28800 / 86400 + 1) * 86400 + ([9, 13, 17, 21] : List Nat).headD 0 * 3600)) :=
  C7_next_slot_empty_recent 4 [9, 13, 17, 21] 28800 (by decide) (by decide)
    (by decide) (by decide)

/-! ### Claim C8: id uniqueness under same-second enqueues -/

/-- Claim C8 is refuted by the code: the id is the f-string
name_strftime(%Y%m%d_%H%M%S), a value with one-second resolution, so two
distinct enqueue calls falling within the same UTC second and carrying the
same tool name return identical ids (here both ids are
argo_20250101120000 in strftime terms): the "Generate unique ID" intent
stated in add_to_queue's own comment is not met. -/
theorem C8_same_second_id_collision :
    (MicroTime.mk 1735732800 100000 ≠ MicroTime.mk 1735732800 900000) ∧
    (add_to_queue 4 [9, 13, 17, 21] emptyState "argo" "d" "c" 1
        (MicroTime.mk 1735732800 100000)).1 =
      (add_to_queue 4 [9, 13, 17, 21]
        (add_to_queue 4 [9, 13, 17, 21] emptyState "argo" "d" "c" 1
          (MicroTime.mk 1735732800 100000)).2 "argo" "d" "c" 1
        (MicroTime.mk 1735732800 900000)).1 :=
  ⟨by decide, rfl⟩
